import Mathlib

/-!
Verification of the MQTT bridge repository (express bridge, Cloudflare-worker
bridge, ESP8266 firmware) against its natural-language specification.

The embedding models:
* the JSON values produced by the JavaScript `JSON.parse` call in the two
  bridge variants (integers only; the telemetry payloads carry integers),
* the JavaScript object-spread semantics used by the telemetry handler
  `latestData = ...parsed..., timestamp: new Date().toISOString()`,
* the HTTP command handlers of both bridge variants over an explicit
  transport that records every publish attempt, with the broker's
  acknowledgment outcome passed in as an oracle,
* the firmware's MQTT callback and `publishData`,
* the topic-name construction of all three implementations.
-/

set_option maxRecDepth 100000

/-- A JavaScript value as produced by `JSON.parse`. Numbers are modelled as
integers: every numeric field in this system (uptime, freeHeap, rssi) is an
integer on the wire. -/
inductive JVal where
  | null
  | bool (b : Bool)
  | num (n : Int)
  | str (s : String)
  | arr (xs : List JVal)
  | obj (fields : List (String × JVal))

/-- A JavaScript object: ordered key/value pairs; lookup takes the first hit
(the construction below never creates duplicate keys). -/
abbrev JObj := List (String × JVal)

/-- Property lookup on a JavaScript object. -/
def getField : JObj → String → Option JVal
  | [], _ => none
  | (k', v) :: rest, k => if k' = k then some v else getField rest k

/-- Setting a property: models writing `k : v` after a spread, as in the
object literal `... spread of o ..., k: v` — any earlier `k` is overridden. -/
def objInsert (o : JObj) (k : String) (v : JVal) : JObj :=
  o.filter (fun p => p.1 != k) ++ [(k, v)]

/-- While parsing an object front-to-back, a later duplicate key wins
(`JSON.parse` semantics), so a parsed field is only kept when the rest of the
object does not define the key again. -/
def addFieldFront (k : String) (v : JVal) (o : JObj) : JObj :=
  if (getField o k).isSome then o else (k, v) :: o

/-- The double-quote character. -/
def qCh : Char := Char.ofNat 34

/-- The backslash character. -/
def bsCh : Char := Char.ofNat 92

/-- The opening-brace character. -/
def lbCh : Char := Char.ofNat 123

/-- The closing-brace character. -/
def rbCh : Char := Char.ofNat 125

/-- JSON whitespace. -/
def isJsonWs (c : Char) : Bool :=
  c = ' ' || c = '\t' || c = '\n' || c = '\r'

/-- Drop leading JSON whitespace. -/
def skipWs : List Char → List Char
  | [] => []
  | c :: cs => if isJsonWs c then skipWs cs else c :: cs

/-- JSON string escapes. -/
def escChar (c : Char) : Option Char :=
  if c = qCh then some qCh
  else if c = bsCh then some bsCh
  else if c = '/' then some '/'
  else if c = 'n' then some '\n'
  else if c = 't' then some '\t'
  else if c = 'r' then some '\r'
  else if c = 'b' then some (Char.ofNat 8)
  else if c = 'f' then some (Char.ofNat 12)
  else none

/-- Parse the body of a JSON string after the opening quote; returns the
characters and the remainder after the closing quote. -/
def parseStrChars : List Char → Option (List Char × List Char)
  | [] => none
  | c :: rest =>
    if c = qCh then some ([], rest)
    else if c = bsCh then
      match rest with
      | [] => none
      | e :: rest2 =>
        match escChar e with
        | some d =>
          match parseStrChars rest2 with
          | some (cs, r) => some (d :: cs, r)
          | none => none
        | none => none
    else
      match parseStrChars rest with
      | some (cs, r) => some (c :: cs, r)
      | none => none

/-- Take a maximal run of decimal digits. -/
def takeDigits : List Char → List Char × List Char
  | [] => ([], [])
  | c :: cs =>
    if c.isDigit then
      match takeDigits cs with
      | (ds, r) => (c :: ds, r)
    else ([], c :: cs)

/-- Decimal digits to a natural number. -/
def digitsToNat (ds : List Char) : Nat :=
  ds.foldl (fun a c => a * 10 + (c.toNat - 48)) 0

/-- Parsing mode: a single value, the tail of an array, or the tail of an
object (results are wrapped back into `JVal.arr` / `JVal.obj`). -/
inductive PMode where
  | val
  | elems
  | fields

/-- Fuel-bounded recursive-descent JSON parser (the model of the library call
`JSON.parse` made by both bridge variants). -/
def parseJ : Nat → PMode → List Char → Option (JVal × List Char)
  | 0, _, _ => none
  | Nat.succ fuel, PMode.val, input =>
    match skipWs input with
    | [] => none
    | c :: rest =>
      if c = qCh then
        match parseStrChars rest with
        | some (cs, r) => some (JVal.str (String.mk cs), r)
        | none => none
      else if c = lbCh then
        match skipWs rest with
        | [] => none
        | c2 :: r2 =>
          if c2 = rbCh then some (JVal.obj [], r2)
          else parseJ fuel PMode.fields (c2 :: r2)
      else if c = '[' then
        match skipWs rest with
        | [] => none
        | c2 :: r2 =>
          if c2 = ']' then some (JVal.arr [], r2)
          else parseJ fuel PMode.elems (c2 :: r2)
      else if c = '-' then
        match takeDigits rest with
        | ([], _) => none
        | (ds, r) => some (JVal.num (-(Int.ofNat (digitsToNat ds))), r)
      else if c.isDigit then
        match takeDigits (c :: rest) with
        | (ds, r) => some (JVal.num (Int.ofNat (digitsToNat ds)), r)
      else
        match c :: rest with
        | 't' :: 'r' :: 'u' :: 'e' :: r => some (JVal.bool true, r)
        | 'f' :: 'a' :: 'l' :: 's' :: 'e' :: r => some (JVal.bool false, r)
        | 'n' :: 'u' :: 'l' :: 'l' :: r => some (JVal.null, r)
        | _ => none
  | Nat.succ fuel, PMode.elems, input =>
    match parseJ fuel PMode.val input with
    | none => none
    | some (v, r) =>
      match skipWs r with
      | [] => none
      | c :: r2 =>
        if c = ',' then
          match parseJ fuel PMode.elems r2 with
          | some (JVal.arr xs, r3) => some (JVal.arr (v :: xs), r3)
          | _ => none
        else if c = ']' then some (JVal.arr [v], r2)
        else none
  | Nat.succ fuel, PMode.fields, input =>
    match skipWs input with
    | [] => none
    | c :: rest =>
      if c = qCh then
        match parseStrChars rest with
        | none => none
        | some (kcs, r) =>
          match skipWs r with
          | [] => none
          | c2 :: r2 =>
            if c2 = ':' then
              match parseJ fuel PMode.val r2 with
              | none => none
              | some (v, r3) =>
                match skipWs r3 with
                | [] => none
                | c3 :: r4 =>
                  if c3 = ',' then
                    match parseJ fuel PMode.fields r4 with
                    | some (JVal.obj o, r5) => some (JVal.obj (addFieldFront (String.mk kcs) v o), r5)
                    | _ => none
                  else if c3 = rbCh then some (JVal.obj [(String.mk kcs, v)], r4)
                  else none
            else none
      else none

/-- `JSON.parse`: parse one value, require only whitespace after it. -/
def jsonParse (s : String) : Option JVal :=
  match parseJ (2 * s.length + 16) PMode.val s.toList with
  | some (v, rest) => if skipWs rest = [] then some v else none
  | none => none

/-- JavaScript object-spread of an arbitrary value, as in the literal
`...v, timestamp: t`: an object contributes its fields, an array or a string
contributes index-keyed entries, every other value contributes nothing. -/
def idxKeys : Nat → List JVal → JObj
  | _, [] => []
  | i, v :: vs => (toString i, v) :: idxKeys (i + 1) vs

/-- Own enumerable entries of a value, for the spread that builds the new
snapshot. -/
def jsSpread : JVal → JObj
  | JVal.obj o => o
  | JVal.arr xs => idxKeys 0 xs
  | JVal.str s => idxKeys 0 (s.toList.map (fun c => JVal.str (String.mk [c])))
  | _ => []

/-- Telemetry topic `device/<id>/data`. -/
def dataTopic (dev : String) : String := "device/" ++ dev ++ "/data"

/-- Command topic `device/<id>/command`. -/
def commandTopic (dev : String) : String := "device/" ++ dev ++ "/command"

/-- Status topic `device/<id>/status`. -/
def statusTopic (dev : String) : String := "device/" ++ dev ++ "/status"

/-- The bridge's MQTT message handler (identical logic in the express variant
and the cf-worker variant): on the telemetry topic, `JSON.parse` the payload;
on success replace `latestData` by the object literal
`...parsed, timestamp: <receipt time>`; on failure fall into the catch block,
leaving `latestData` untouched. The returned flag is `true` exactly when the
catch block (the decode-failure signal to the supervisor) ran; any other
topic leaves the state unchanged (the status topic is log-only). Totality of
this function models the catch: the handler returns instead of throwing. -/
def onMessage (dev topic msg : String) (cur : JObj) (now : String) : JObj × Bool :=
  if topic = dataTopic dev then
    match jsonParse msg with
    | some v => (objInsert (jsSpread v) "timestamp" (JVal.str now), false)
    | none => (cur, true)
  else (cur, false)

/-- The startup placeholder snapshot
`ledState: false, timestamp: <startup time>`. -/
def initState (t0 : String) : JObj :=
  [("ledState", JVal.bool false), ("timestamp", JVal.str t0)]

/-- `read()`: the `/api/data` handler returns `latestData` as-is. -/
def readData (st : JObj) : JObj := st

/-- One inbound broker message together with the bridge-side receipt time at
which the handler runs. -/
structure MsgEvent where
  topic : String
  payload : String
  receiptTime : String

/-- Replay a sequence of inbound messages through the message handler. -/
def replay (dev : String) (evs : List MsgEvent) (st : JObj) : JObj :=
  evs.foldl (fun s e => (onMessage dev e.topic e.payload s e.receiptTime).1) st

/-- The bridge receipt time of the last successfully parsed telemetry
message in the sequence, or the startup time when there is none. -/
def lastReceipt (dev : String) (evs : List MsgEvent) (t0 : String) : String :=
  evs.foldl
    (fun acc e =>
      if e.topic = dataTopic dev ∧ (jsonParse e.payload).isSome then e.receiptTime else acc)
    t0

/-- The broker transport as the command handlers see it: the connection flag
and the list of publish attempts (topic, payload) recorded in order. -/
structure Transport where
  connected : Bool
  published : List (String × String)

/-- `client.publish(topic, payload, qos 1)`: record the publish attempt. -/
def pubMsg (t : Transport) (topic payload : String) : Transport :=
  { t with published := t.published ++ [(topic, payload)] }

/-- The HTTP response as far as the contract is concerned: status code and
the `success` flag of the JSON body. -/
structure HResp where
  status : Nat
  success : Bool

/-- A JavaScript request-body field as the handlers see it after
`req.body` / `c.req.json()` destructuring. -/
inductive BodyVal where
  | undef
  | null
  | bool (b : Bool)
  | num (n : Int)
  | str (s : String)
  | obj
  | arr

/-- Outcome of a handler that can throw: a response, or an uncaught
exception. -/
inductive Outcome where
  | resp (r : HResp)
  | thrown (e : String)

/-- JavaScript `String.prototype.trim` whitespace. -/
def isJsWs (c : Char) : Bool :=
  c = ' ' || c = '\t' || c = '\n' || c = '\r' ||
  c = Char.ofNat 11 || c = Char.ofNat 12 || c = Char.ofNat 160 || c = Char.ofNat 65279

/-- JavaScript `String.prototype.trim`. -/
def jsTrim (s : String) : String :=
  String.mk (((s.toList.dropWhile isJsWs).reverse.dropWhile isJsWs).reverse)

/-- Express variant, `POST /api/command/led`: reject a non-boolean body with
400; otherwise publish `LED_ON`/`LED_OFF` with QoS 1 and answer from the
publish callback — 500 when the callback reports an error (`ackBad`), 200
success otherwise. -/
def ledHandlerExpress (dev : String) (state : BodyVal) (t : Transport) (ackBad : Bool) :
    HResp × Transport :=
  match state with
  | BodyVal.bool b =>
    ((if ackBad then ⟨500, false⟩ else ⟨200, true⟩),
      pubMsg t (commandTopic dev) (if b then "LED_ON" else "LED_OFF"))
  | _ => (⟨400, false⟩, t)

/-- Cf-worker variant, `POST /api/command/led`: same boolean guard, but the
publish carries no callback, so the response is 200 success immediately —
the broker's acknowledgment outcome (`_ackBad`) cannot influence it. -/
def ledHandlerWorker (dev : String) (state : BodyVal) (t : Transport) (_ackBad : Bool) :
    HResp × Transport :=
  match state with
  | BodyVal.bool b =>
    (⟨200, true⟩, pubMsg t (commandTopic dev) (if b then "LED_ON" else "LED_OFF"))
  | _ => (⟨400, false⟩, t)

/-- Express variant, `POST /api/command`: the guard
`typeof command !== "string" || command.trim() === ""` returns 400 before any
publish; otherwise publish the trimmed command and answer from the publish
callback, as in the led handler. -/
def rawHandlerExpress (dev : String) (command : BodyVal) (t : Transport) (ackBad : Bool) :
    HResp × Transport :=
  match command with
  | BodyVal.str s =>
    if jsTrim s = "" then (⟨400, false⟩, t)
    else
      ((if ackBad then ⟨500, false⟩ else ⟨200, true⟩),
        pubMsg t (commandTopic dev) (jsTrim s))
  | _ => (⟨400, false⟩, t)

/-- Cf-worker variant, `POST /api/command`: the guard is `!command?.trim()`.
`undefined`/`null` short-circuit to 400; a string is trimmed and an empty
result gives 400; any other defined value calls `.trim()` on a value that has
no such method, throwing a `TypeError` before any publish. A non-empty string
publishes and answers 200 success immediately (no callback). -/
def rawHandlerWorker (dev : String) (command : BodyVal) (t : Transport) (_ackBad : Bool) :
    Outcome × Transport :=
  match command with
  | BodyVal.undef => (Outcome.resp ⟨400, false⟩, t)
  | BodyVal.null => (Outcome.resp ⟨400, false⟩, t)
  | BodyVal.str s =>
    if jsTrim s = "" then (Outcome.resp ⟨400, false⟩, t)
    else (Outcome.resp ⟨200, true⟩, pubMsg t (commandTopic dev) (jsTrim s))
  | _ => (Outcome.thrown "TypeError", t)

/-- Firmware state: the GPIO2 level (the LED is active-low, so `pinHigh`
means LED off), the `ledState` variable, and the publish attempts made
through the PubSubClient. -/
structure FwState where
  pinHigh : Bool
  ledState : Bool
  published : List (String × String)

/-- Environment readings at publish time: `millis()`, `ESP.getFreeHeap()`,
`WiFi.RSSI()`. -/
structure FwEnv where
  millisNow : Nat
  freeHeap : Nat
  rssi : Int

/-- The exact JSON text `serializeJson` produces for the telemetry document
`ledState, uptime, freeHeap, rssi`. -/
def serializeData (led : Bool) (env : FwEnv) : String :=
  "\x7b\"ledState\":" ++ (if led then "true" else "false") ++
  ",\"uptime\":" ++ toString (env.millisNow / 1000) ++
  ",\"freeHeap\":" ++ toString env.freeHeap ++
  ",\"rssi\":" ++ toString env.rssi ++ "\x7d"

/-- `publishData()`: serialize the current `ledState` plus health readings
and attempt a publish on the data topic. -/
def publishData (dev : String) (st : FwState) (env : FwEnv) : FwState :=
  { st with published := st.published ++ [(dataTopic dev, serializeData st.ledState env)] }

/-- The firmware MQTT `callback`: on the command topic, `LED_ON` drives the
pin LOW (LED on), sets `ledState = true` and calls `publishData()`
immediately; `LED_OFF` symmetrically; any other message or topic does
nothing. -/
def fwCallback (dev topic msg : String) (st : FwState) (env : FwEnv) : FwState :=
  if topic = commandTopic dev then
    if msg = "LED_ON" then
      publishData dev { st with pinHigh := false, ledState := true } env
    else if msg = "LED_OFF" then
      publishData dev { st with pinHigh := true, ledState := false } env
    else st
  else st

/-- The three logical channels of one device. -/
structure TopicSet where
  data : String
  command : String
  status : String

/-- Topic construction in the express bridge (`TOPICS`, template literals). -/
def topicsExpress (dev : String) : TopicSet :=
  { data := "device/" ++ dev ++ "/data"
    command := "device/" ++ dev ++ "/command"
    status := "device/" ++ dev ++ "/status" }

/-- Topic construction in the cf-worker bridge (inline template literals in
the handlers). -/
def topicsWorker (dev : String) : TopicSet :=
  { data := "device/" ++ dev ++ "/data"
    command := "device/" ++ dev ++ "/command"
    status := "device/" ++ dev ++ "/status" }

/-- Topic construction in the firmware
(`String("device/") + deviceId + "/..."`). -/
def topicsFirmware (dev : String) : TopicSet :=
  { data := "device/" ++ dev ++ "/data"
    command := "device/" ++ dev ++ "/command"
    status := "device/" ++ dev ++ "/status" }

/-- Worker handlers never see a string-typed command for non-string JSON
values; this picks out the bodies whose `command` field is defined, non-null
and not a string. -/
def nonStringDefined : BodyVal → Bool
  | BodyVal.bool _ => true
  | BodyVal.num _ => true
  | BodyVal.obj => true
  | BodyVal.arr => true
  | _ => false

/-- The concrete end-to-end telemetry payload of the specification. -/
def c3payload : String :=
  "\x7b\"ledState\":true,\"uptime\":120,\"freeHeap\":30000,\"rssi\":-55\x7d"

theorem getField_append_none (l m : JObj) (k : String) (h : getField l k = none) :
    getField (l ++ m) k = getField m k := by
  induction l with
  | nil => rfl
  | cons p rest ih =>
    obtain ⟨k', v⟩ := p
    by_cases hk : k' = k
    · simp [getField, hk] at h
    · simp only [getField, hk, if_neg, List.cons_append] at h ⊢
      exact ih h

theorem getField_filter_ne (l : JObj) (k : String) :
    getField (l.filter (fun p => p.1 != k)) k = none := by
  induction l with
  | nil => rfl
  | cons p rest ih =>
    by_cases hk : p.1 = k
    · simp [List.filter_cons, hk, ih]
    · simp [List.filter_cons, hk, getField, ih]

theorem getField_objInsert_self (o : JObj) (k : String) (v : JVal) :
    getField (objInsert o k v) k = some v := by
  unfold objInsert
  rw [getField_append_none _ _ _ (getField_filter_ne o k)]
  simp [getField]

theorem getField_append_some (l m : JObj) (k : String) (v : JVal)
    (h : getField l k = some v) : getField (l ++ m) k = some v := by
  induction l with
  | nil => simp [getField] at h
  | cons p rest ih =>
    obtain ⟨k', w⟩ := p
    by_cases hk : k' = k
    · simp [getField, hk] at h ⊢; exact h
    · simp only [getField, hk, if_neg, List.cons_append] at h ⊢
      exact ih h

theorem getField_filter_other (l : JObj) (k k' : String) (h : k' ≠ k) :
    getField (l.filter (fun p => p.1 != k')) k = getField l k := by
  induction l with
  | nil => rfl
  | cons p rest ih =>
    obtain ⟨a, b⟩ := p
    by_cases ha : a = k'
    · have hak : a ≠ k := by rw [ha]; exact h
      simp [List.filter_cons, ha, getField, hak, h, ih]
    · simp [List.filter_cons, ha, getField, ih]

theorem getField_objInsert_ne (o : JObj) (k k' : String) (v : JVal) (h : k' ≠ k) :
    getField (objInsert o k' v) k = getField o k := by
  unfold objInsert
  cases hf : getField (o.filter (fun p => p.1 != k')) k with
  | none =>
    rw [getField_append_none _ _ _ hf, ← getField_filter_other o k k' h, hf]
    simp [getField, h]
  | some w =>
    rw [getField_append_some _ _ _ _ hf, ← getField_filter_other o k k' h, hf]

/-- C2: for every stored snapshot and every malformed (unparseable) telemetry
payload, the message handler leaves the stored snapshot exactly unchanged (a
subsequent read returns the same value) and signals the decode failure only
through the catch-branch flag returned to the supervisor; the handler is a
total function that returns normally, so neither the session nor the
message-handling loop is terminated. -/
theorem esp_C2 (dev msg : String) (cur : JObj) (now : String)
    (h : jsonParse msg = none) :
    onMessage dev (dataTopic dev) msg cur now = (cur, true) ∧
    readData (onMessage dev (dataTopic dev) msg cur now).1 = readData cur := by
  refine ⟨?_, ?_⟩ <;> simp [onMessage, readData, h]

/-- C2 witness: the malformed payload `led=on` at the concrete startup
state. -/
theorem esp_C2_witness :
    onMessage "esp8266_001" (dataTopic "esp8266_001") "led=on" (initState "T0") "T1" =
      (initState "T0", true) :=
  (esp_C2 "esp8266_001" "led=on" (initState "T0") "T1" rfl).1

/-- C3: the telemetry payload
`ledState:true, uptime:120, freeHeap:30000, rssi:-55` arriving on the
telemetry topic makes a subsequent `read()` return a snapshot with
`ledState = true`, `uptime = 120`, `freeHeap = 30000`, `rssi = -55`, and the
`timestamp` (the spec's `observedAt`) equal to the bridge's receipt time,
for every prior snapshot and every receipt time. -/
theorem esp_C3 (cur : JObj) (now : String) :
    (onMessage "esp8266_001" (dataTopic "esp8266_001") c3payload cur now).2 = false ∧
    getField (readData (onMessage "esp8266_001" (dataTopic "esp8266_001") c3payload cur now).1)
      "ledState" = some (JVal.bool true) ∧
    getField (readData (onMessage "esp8266_001" (dataTopic "esp8266_001") c3payload cur now).1)
      "uptime" = some (JVal.num 120) ∧
    getField (readData (onMessage "esp8266_001" (dataTopic "esp8266_001") c3payload cur now).1)
      "freeHeap" = some (JVal.num 30000) ∧
    getField (readData (onMessage "esp8266_001" (dataTopic "esp8266_001") c3payload cur now).1)
      "rssi" = some (JVal.num (-55)) ∧
    getField (readData (onMessage "esp8266_001" (dataTopic "esp8266_001") c3payload cur now).1)
      "timestamp" = some (JVal.str now) :=
  ⟨rfl, rfl, rfl, rfl, rfl, rfl⟩

/-- C4: every successful replace installs a snapshot built wholly from the
new payload: apart from the bridge-written `timestamp`, every key of the new
snapshot reads exactly as in the parsed payload — so nothing from the
previous snapshot (placeholder included) survives, and a key absent from the
payload is absent in the new snapshot rather than defaulted. -/
theorem esp_C4 (dev msg now : String) (cur : JObj) (v : JVal)
    (h : jsonParse msg = some v) :
    (onMessage dev (dataTopic dev) msg cur now).2 = false ∧
    getField (onMessage dev (dataTopic dev) msg cur now).1 "timestamp" =
      some (JVal.str now) ∧
    ∀ k, k ≠ "timestamp" →
      getField (onMessage dev (dataTopic dev) msg cur now).1 k = getField (jsSpread v) k := by
  have hroute : onMessage dev (dataTopic dev) msg cur now =
      (objInsert (jsSpread v) "timestamp" (JVal.str now), false) := by
    simp [onMessage, h]
  rw [hroute]
  exact ⟨rfl, getField_objInsert_self _ _ _,
    fun k hk => getField_objInsert_ne _ _ _ _ (Ne.symm hk)⟩

/-- C4 witness: the payload `uptime:5` over the startup placeholder — the
placeholder's `ledState` does not survive into the new snapshot. -/
theorem esp_C4_witness :
    getField (onMessage "esp8266_001" (dataTopic "esp8266_001") "\x7b\"uptime\":5\x7d"
      (initState "T0") "T1").1 "ledState" = none :=
  ((esp_C4 "esp8266_001" "\x7b\"uptime\":5\x7d" "T1" (initState "T0")
      (JVal.obj [("uptime", JVal.num 5)]) rfl).2.2 "ledState" (by decide)).trans rfl

theorem replay_timestamp (dev : String) (evs : List MsgEvent) :
    ∀ (st : JObj) (t0 : String), getField st "timestamp" = some (JVal.str t0) →
      getField (replay dev evs st) "timestamp" =
        some (JVal.str (lastReceipt dev evs t0)) := by
  induction evs with
  | nil => intro st t0 h; simpa [replay, lastReceipt] using h
  | cons e rest ih =>
    intro st t0 h
    by_cases ht : e.topic = dataTopic dev
    · cases hp : jsonParse e.payload with
      | none =>
        have h1 : replay dev (e :: rest) st = replay dev rest st := by
          simp [replay, onMessage, ht, hp]
        have h2 : lastReceipt dev (e :: rest) t0 = lastReceipt dev rest t0 := by
          simp [lastReceipt, hp]
        rw [h1, h2]; exact ih st t0 h
      | some v =>
        have h1 : replay dev (e :: rest) st =
            replay dev rest (objInsert (jsSpread v) "timestamp" (JVal.str e.receiptTime)) := by
          simp [replay, onMessage, ht, hp]
        have h2 : lastReceipt dev (e :: rest) t0 = lastReceipt dev rest e.receiptTime := by
          simp [lastReceipt, ht, hp]
        rw [h1, h2]
        exact ih _ _ (getField_objInsert_self _ _ _)
    · have h1 : replay dev (e :: rest) st = replay dev rest st := by
        simp [replay, onMessage, ht]
      have h2 : lastReceipt dev (e :: rest) t0 = lastReceipt dev rest t0 := by
        simp [lastReceipt, ht]
      rw [h1, h2]; exact ih st t0 h

/-- C5: for every sequence of inbound messages replayed from the startup
placeholder, the stored `timestamp` (the spec's `observedAt`) equals the
bridge-side receipt time of the last successfully parsed telemetry message
(the startup time when there is none). The receipt times form an input
stream separate from the payload bytes, so a `timestamp` field carried
inside a payload can never become the stored `observedAt`. -/
theorem esp_C5 (dev t0 : String) (evs : List MsgEvent) :
    getField (replay dev evs (initState t0)) "timestamp" =
      some (JVal.str (lastReceipt dev evs t0)) :=
  replay_timestamp dev evs (initState t0) t0 rfl

/-- C6: a raw command whose string is empty or whitespace-only fails with
400 InvalidInput in both bridge variants before any publish is attempted
(the transport's publish list is unchanged); every other string publishes
exactly the trimmed command on the command topic under the same
response contract as the boolean led command of the same variant. -/
theorem esp_C6 (dev s : String) (t : Transport) (ackBad : Bool) :
    (jsTrim s = "" →
      rawHandlerExpress dev (BodyVal.str s) t ackBad = (⟨400, false⟩, t) ∧
      rawHandlerWorker dev (BodyVal.str s) t ackBad = (Outcome.resp ⟨400, false⟩, t)) ∧
    (jsTrim s ≠ "" →
      (rawHandlerExpress dev (BodyVal.str s) t ackBad).2 =
        pubMsg t (commandTopic dev) (jsTrim s) ∧
      (rawHandlerExpress dev (BodyVal.str s) t ackBad).1 =
        (ledHandlerExpress dev (BodyVal.bool true) t ackBad).1 ∧
      (rawHandlerWorker dev (BodyVal.str s) t ackBad).2 =
        pubMsg t (commandTopic dev) (jsTrim s) ∧
      (rawHandlerWorker dev (BodyVal.str s) t ackBad).1 =
        Outcome.resp (ledHandlerWorker dev (BodyVal.bool true) t ackBad).1) := by
  constructor
  · intro h
    simp [rawHandlerExpress, rawHandlerWorker, h]
  · intro h
    simp [rawHandlerExpress, rawHandlerWorker, ledHandlerExpress, ledHandlerWorker, h]

/-- C6 witness: `"   "` is rejected with no publish; `" PING "` publishes
the trimmed command. -/
theorem esp_C6_witness :
    rawHandlerExpress "esp8266_001" (BodyVal.str "   ") ⟨true, []⟩ false =
      (⟨400, false⟩, ⟨true, []⟩) ∧
    (rawHandlerWorker "esp8266_001" (BodyVal.str " PING ") ⟨true, []⟩ false).2 =
      pubMsg ⟨true, []⟩ (commandTopic "esp8266_001") "PING" :=
  ⟨((esp_C6 "esp8266_001" "   " ⟨true, []⟩ false).1 rfl).1,
   ((esp_C6 "esp8266_001" " PING " ⟨true, []⟩ false).2 (by decide)).2.2.1⟩

/-- C7: a non-boolean led-command body fails with 400 InvalidInput and
publishes nothing in both variants; the boolean `true` publishes exactly the
token `LED_ON` on the command topic, `false` exactly `LED_OFF` — the publish
list is extended by exactly that one token, so no other token is ever
published by this operation. -/
theorem esp_C7 (dev : String) (t : Transport) (ackBad : Bool) (v : BodyVal) :
    ((∀ b, v ≠ BodyVal.bool b) →
      ledHandlerExpress dev v t ackBad = (⟨400, false⟩, t) ∧
      ledHandlerWorker dev v t ackBad = (⟨400, false⟩, t)) ∧
    (∀ b, v = BodyVal.bool b →
      (ledHandlerExpress dev v t ackBad).2.published =
        t.published ++ [(commandTopic dev, if b then "LED_ON" else "LED_OFF")] ∧
      (ledHandlerWorker dev v t ackBad).2.published =
        t.published ++ [(commandTopic dev, if b then "LED_ON" else "LED_OFF")]) := by
  constructor
  · intro hnb
    cases v with
    | bool b => exact absurd rfl (hnb b)
    | undef => exact ⟨rfl, rfl⟩
    | null => exact ⟨rfl, rfl⟩
    | num n => exact ⟨rfl, rfl⟩
    | str s => exact ⟨rfl, rfl⟩
    | obj => exact ⟨rfl, rfl⟩
    | arr => exact ⟨rfl, rfl⟩
  · intro b hb
    subst hb
    exact ⟨rfl, rfl⟩

/-- C7 witness: a string body is rejected with no publish; `true` publishes
exactly `LED_ON`. -/
theorem esp_C7_witness :
    ledHandlerWorker "esp8266_001" (BodyVal.str "x") ⟨true, []⟩ false =
      (⟨400, false⟩, ⟨true, []⟩) ∧
    (ledHandlerExpress "esp8266_001" (BodyVal.bool true) ⟨true, []⟩ false).2.published =
      [(commandTopic "esp8266_001", "LED_ON")] :=
  ⟨((esp_C7 "esp8266_001" ⟨true, []⟩ false (BodyVal.str "x")).1
      (fun _ h => BodyVal.noConfusion h)).2,
   ((esp_C7 "esp8266_001" ⟨true, []⟩ false (BodyVal.bool true)).2 true rfl).1⟩

/-- C8: in the device role, a `LED_ON` (resp. `LED_OFF`) message on the
command topic drives the active-low pin LOW (resp. HIGH), sets `ledState` to
`true` (resp. `false`), and the very same callback invocation appends one
telemetry publish on the data topic carrying the updated `ledState` — no
wait for the periodic publish tick. -/
theorem esp_C8 (dev : String) (st : FwState) (env : FwEnv) :
    fwCallback dev (commandTopic dev) "LED_ON" st env =
      { pinHigh := false, ledState := true,
        published := st.published ++ [(dataTopic dev, serializeData true env)] } ∧
    fwCallback dev (commandTopic dev) "LED_OFF" st env =
      { pinHigh := true, ledState := false,
        published := st.published ++ [(dataTopic dev, serializeData false env)] } := by
  constructor <;> simp [fwCallback, publishData]

/-- C9: the topic mapping is a pure total function producing exactly
`device/<id>/data`, `device/<id>/command`, `device/<id>/status`, and the
express bridge, the cf-worker bridge and the firmware construct identical
topic sets for every device id. -/
theorem esp_C9 (dev : String) :
    topicsExpress dev =
      { data := dataTopic dev, command := commandTopic dev, status := statusTopic dev } ∧
    topicsWorker dev = topicsExpress dev ∧
    topicsFirmware dev = topicsExpress dev :=
  ⟨rfl, rfl, rfl⟩

/-- C10: for a defined, non-null, non-string `command` body field the
cf-worker guard `command?.trim()` throws a `TypeError` instead of answering
400 InvalidInput, while the express variant answers 400 via its `typeof`
check; in both variants no publish occurs. -/
theorem esp_C10 (dev : String) (t : Transport) (ackBad : Bool) (v : BodyVal)
    (h : nonStringDefined v = true) :
    rawHandlerWorker dev v t ackBad = (Outcome.thrown "TypeError", t) ∧
    rawHandlerExpress dev v t ackBad = (⟨400, false⟩, t) := by
  cases v with
  | bool b => exact ⟨rfl, rfl⟩
  | num n => exact ⟨rfl, rfl⟩
  | obj => exact ⟨rfl, rfl⟩
  | arr => exact ⟨rfl, rfl⟩
  | undef => simp [nonStringDefined] at h
  | null => simp [nonStringDefined] at h
  | str s => simp [nonStringDefined] at h

/-- C10 witness: the numeric body `command: 5`. -/
theorem esp_C10_witness :
    rawHandlerWorker "esp8266_001" (BodyVal.num 5) ⟨true, []⟩ false =
      (Outcome.thrown "TypeError", ⟨true, []⟩) ∧
    rawHandlerExpress "esp8266_001" (BodyVal.num 5) ⟨true, []⟩ false =
      (⟨400, false⟩, ⟨true, []⟩) :=
  esp_C10 "esp8266_001" ⟨true, []⟩ false (BodyVal.num 5) rfl

/-- C1 counterexample: the cf-worker led handler publishes without a
callback and reports success immediately — here with a disconnected
transport and an acknowledgment oracle saying the broker never acknowledged
(`ackBad = true`), the response is still 200 success, contradicting
"success is never reported for a publish that was not acknowledged". -/
theorem esp_C1_cex :
    (ledHandlerWorker "esp8266_001" (BodyVal.bool true) ⟨false, []⟩ true).1 =
      ⟨200, true⟩ ∧
    (⟨false, []⟩ : Transport).connected = false :=
  ⟨rfl, rfl⟩

/-- C1 (amended): in the express variant the command handlers answer from
the publish callback — success exactly when the broker acknowledgment
callback reports no error, and a 500 PublishError response when it does;
the cf-worker variant publishes without a callback and reports 200 success
unconditionally, regardless of connection state or acknowledgment. -/
theorem esp_C1_amended (dev s : String) (t : Transport) (b ackBad : Bool)
    (hs : jsTrim s ≠ "") :
    (ledHandlerExpress dev (BodyVal.bool b) t ackBad).1.success = !ackBad ∧
    (ledHandlerExpress dev (BodyVal.bool b) t ackBad).1.status =
      (if ackBad then 500 else 200) ∧
    (rawHandlerExpress dev (BodyVal.str s) t ackBad).1.success = !ackBad ∧
    (rawHandlerWorker dev (BodyVal.str s) t ackBad).1 = Outcome.resp ⟨200, true⟩ ∧
    (ledHandlerWorker dev (BodyVal.bool b) t ackBad).1 = ⟨200, true⟩ := by
  cases ackBad <;>
    simp [ledHandlerExpress, ledHandlerWorker, rawHandlerExpress, rawHandlerWorker, hs]

/-- C1 amended witness: with a failed acknowledgment the express handler
answers failure while the worker handler still answers success. -/
theorem esp_C1_amended_witness :
    (ledHandlerExpress "esp8266_001" (BodyVal.bool true) ⟨true, []⟩ true).1.success = false ∧
    (ledHandlerWorker "esp8266_001" (BodyVal.bool true) ⟨true, []⟩ true).1 = ⟨200, true⟩ :=
  ⟨(esp_C1_amended "esp8266_001" "x" ⟨true, []⟩ true true (by decide)).1,
   (esp_C1_amended "esp8266_001" "x" ⟨true, []⟩ true true (by decide)).2.2.2.2⟩
